import Mathlib

/-!
Shallow embedding of `src/bookstore.py` (BookStore_Manager), a terminal
sales-ledger over three sqlite tables (`member`, `book`, `sale`).

The database state is modelled as lists of rows; each command handler of
the Python program becomes a pure function from the state (plus the
strings the user would type at the prompts) to the new state and an
outcome describing which message the handler prints.  Storage-layer
errors raised by sqlite during a transaction are modelled by explicit
fault flags: when a flag is set, the statement at the corresponding
point of the handler raises `sqlite3.Error`, the handler's `except`
branch runs `conn.rollback()` (restoring the state at `BEGIN`, i.e. the
initial state, since every mutation happens inside the transaction) and
reports a database error.
-/

set_option autoImplicit false

namespace BookStore

/-- Whitespace trimming on character lists, as Python's `str.strip()` /
the stripping performed by `int(...)`. -/
def trimChars (cs : List Char) : List Char :=
  ((cs.dropWhile Char.isWhitespace).reverse.dropWhile Char.isWhitespace).reverse

/-- Value of a decimal digit character. -/
def digitVal (c : Char) : Nat :=
  c.toNat - 48

/-- Decimal value of a non-empty all-digit character list; `none` otherwise. -/
def decDigits? (cs : List Char) : Option Nat :=
  if cs ≠ [] ∧ cs.all Char.isDigit then
    some (cs.foldl (fun a c => a * 10 + digitVal c) 0)
  else none

/-- Python's `int(s)` on a character list: strip whitespace, optional
sign, then a non-empty run of decimal digits; `none` models the
`ValueError` raised on any other input. -/
def pyIntChars (cs : List Char) : Option Int :=
  match trimChars cs with
  | '-' :: ds => (decDigits? ds).map (fun n => -(n : Int))
  | '+' :: ds => (decDigits? ds).map (fun n => (n : Int))
  | ds => (decDigits? ds).map (fun n => (n : Int))

/-- Python's `int(s)` on a string. -/
def pyInt (s : String) : Option Int :=
  pyIntChars s.data

/-- Python's `str.split('-')` on a character list. -/
def splitDash : List Char → List (List Char)
  | [] => [[]]
  | c :: cs =>
    if c = '-' then [] :: splitDash cs
    else
      match splitDash cs with
      | t :: ts => (c :: t) :: ts
      | [] => [[c]]

/-- Python's `str.lower()`. -/
def lowerStr (s : String) : String :=
  ⟨s.data.map Char.toLower⟩

/-- Python's `str.strip()`. -/
def pyStrip (s : String) : String :=
  ⟨trimChars s.data⟩

/-- Embeds `validate_date` (bookstore.py lines 12-22): length 10, exactly
two dashes, three integer tokens, month in 1..12 and day in 1..31. -/
def validate_date (dateStr : String) : Bool :=
  if dateStr.data.length ≠ 10 ∨ dateStr.data.count '-' ≠ 2 then false
  else
    match (splitDash dateStr.data).map pyIntChars with
    | [some _, some month, some day] =>
      if month < 1 ∨ month > 12 ∨ day < 1 ∨ day > 31 then false else true
    | _ => false

/-- A row of the `member` table. -/
structure Member where
  mid : String
  mname : String
deriving DecidableEq, Repr

/-- A row of the `book` table. -/
structure Book where
  bid : String
  btitle : String
  bprice : Int
  bstock : Int
deriving DecidableEq, Repr

/-- A row of the `sale` table; `sid` is assigned by the store's
autoincrement, modelled by the `nextSid` counter of `DB`. -/
structure Sale where
  sid : Nat
  sdate : String
  mid : String
  bid : String
  sqty : Int
  sdiscount : Int
  stotal : Int
deriving DecidableEq, Repr

/-- The persistent store: the three tables plus the autoincrement
counter for `sale.sid`. -/
structure DB where
  members : List Member
  books : List Book
  sales : List Sale
  nextSid : Nat
deriving DecidableEq, Repr

/-- The dictionary returned by `get_book_info` on success. -/
structure BookInfo where
  btitle : String
  bprice : Int
  bstock : Int
deriving DecidableEq, Repr

/-- Errors raised by the sqlite binding layer. -/
inductive SqlError where
  /-- `sqlite3.ProgrammingError`: number of supplied bindings differs
  from the number of `?` placeholders in the statement. -/
  | bindingMismatch
deriving DecidableEq, Repr

/-- Embeds `get_member_name` (lines 24-29): first `member` row with the
given `mid`, if any. -/
def get_member_name (db : DB) (mid : String) : Option String :=
  (db.members.find? (fun m => m.mid == mid)).map (fun m => m.mname)

/-- Python truthiness of `Optional[str]`: `None` and `""` are falsy.
`add_sale` tests `if not get_member_name(conn, mid)`. -/
def pyFalsyStrOpt : Option String → Bool
  | none => true
  | some s => s == ""

/-- Embeds `get_book_info` (lines 31-42).  The call at line 34 passes
`(bid)` — a plain string, not the one-element tuple `(bid,)` — as the
parameter sequence, so sqlite receives one binding per character of
`bid` and raises `sqlite3.ProgrammingError` unless `bid` has exactly one
character; when it does, that single character is bound and the lookup
behaves as intended. -/
def get_book_info (db : DB) (bid : String) : Except SqlError (Option BookInfo) :=
  if bid.data.length = 1 then
    .ok ((db.books.find? (fun b => b.bid == bid)).map
      (fun b => ⟨b.btitle, b.bprice, b.bstock⟩))
  else .error .bindingMismatch

/-- Outcomes of `add_sale`, one per message the handler can print. -/
inductive AddResult where
  | badDate
  | memberNotFound
  | bookNotFound
  | qtyNotInt
  | qtyNotPositive
  | insufficientStock (stock : Int)
  | discountNotInt
  | discountNegative
  | ok (stotal : Int)
  | dbError
deriving DecidableEq, Repr

/-- Fault flags for the statements inside `add_sale`'s transaction:
when set, that statement raises `sqlite3.Error`. -/
structure AddFaults where
  insert : Bool
  update : Bool
  commit : Bool
deriving DecidableEq, Repr

/-- A fault-free storage layer for `add_sale`. -/
def noAddFaults : AddFaults :=
  ⟨false, false, false⟩

/-- Embeds `add_sale` (lines 44-116) applied to the five strings the
user types: date, member id, book id, quantity, discount.  Validation
order follows the source: date format, member existence (Python
truthiness of the returned name), book lookup (whose sqlite error, from
the missing tuple comma at line 34, is caught by the handler at line
111; `rollback` outside a transaction is a no-op), quantity parse and
positivity, stock bound, discount parse and non-negativity.  On success
the sale row is inserted and the stock decremented inside one
transaction; a storage fault raises at the marked statement and the
handler rolls back to the pre-`BEGIN` state. -/
def add_sale (f : AddFaults) (db : DB)
    (sdate mid bid qtyStr discStr : String) : DB × AddResult :=
  if !validate_date sdate then (db, .badDate)
  else if pyFalsyStrOpt (get_member_name db mid) then (db, .memberNotFound)
  else
    match get_book_info db bid with
    | .error _ => (db, .dbError)
    | .ok none => (db, .bookNotFound)
    | .ok (some book_info) =>
      match pyInt qtyStr with
      | none => (db, .qtyNotInt)
      | some sqty =>
        if sqty ≤ 0 then (db, .qtyNotPositive)
        else if book_info.bstock < sqty then (db, .insufficientStock book_info.bstock)
        else
          match pyInt discStr with
          | none => (db, .discountNotInt)
          | some sdiscount =>
            if sdiscount < 0 then (db, .discountNegative)
            else
              let stotal := book_info.bprice * sqty - sdiscount
              -- BEGIN TRANSACTION (line 92)
              if f.insert then (db, .dbError)
              else
                let db1 : DB := { db with
                  sales := db.sales ++ [⟨db.nextSid, sdate, mid, bid, sqty, sdiscount, stotal⟩],
                  nextSid := db.nextSid + 1 }
                if f.update then (db, .dbError)
                else
                  let db2 : DB := { db1 with
                    books := db1.books.map (fun b =>
                      if b.bid == bid then { b with bstock := b.bstock - sqty } else b) }
                  if f.commit then (db, .dbError)
                  else (db2, .ok stotal)

/-- One rendered block of the sale report (the columns selected at
lines 122-129). -/
structure ReportRow where
  sid : Nat
  sdate : String
  mname : String
  btitle : String
  bprice : Int
  sqty : Int
  sdiscount : Int
  stotal : Int
deriving DecidableEq, Repr

/-- Insertion step for ordering sale rows by `sid` (the `ORDER BY
s.sid` of the report and listing queries). -/
def insertBySid (s : Sale) : List Sale → List Sale
  | [] => [s]
  | t :: ts => if s.sid ≤ t.sid then s :: t :: ts else t :: insertBySid s ts

/-- Sale rows ordered by `sid` ascending. -/
def sortBySid (l : List Sale) : List Sale :=
  l.foldr insertBySid []

/-- Result rows of the report query (lines 122-129): `sale` inner-joined
with `member` on `mid` and `book` on `bid`, ordered by `sid`. -/
def reportRows (db : DB) : List ReportRow :=
  (sortBySid db.sales).filterMap (fun s =>
    (db.members.find? (fun m => m.mid == s.mid)).bind (fun m =>
      (db.books.find? (fun b => b.bid == s.bid)).map (fun b =>
        ⟨s.sid, s.sdate, m.mname, b.btitle, b.bprice, s.sqty, s.sdiscount, s.stotal⟩)))

/-- Outcome of `print_sale_report`. -/
inductive ReportResult where
  | noRecords
  | report (rows : List ReportRow)
deriving DecidableEq, Repr

/-- Embeds `print_sale_report` (lines 118-152): a pure read that either
prints the "no records" message or renders every joined row. -/
def print_sale_report (db : DB) : DB × ReportResult :=
  let sales := reportRows db
  if sales.isEmpty then (db, .noRecords) else (db, .report sales)

/-- Embeds `list_sales` (lines 154-171): `(sid, sdate, mname)` for every
sale joined with its member, ordered by `sid`. -/
def list_sales (db : DB) : List (Nat × String × String) :=
  (sortBySid db.sales).filterMap (fun s =>
    (db.members.find? (fun m => m.mid == s.mid)).map (fun m =>
      (s.sid, s.sdate, m.mname)))

/-- Outcomes of `update_sale`. -/
inductive UpdResult where
  | noRecords
  | cancelled
  | invalidChoice
  | discountNotInt
  | discountNegative
  | saleNotFound
  | updated (sid : Nat) (total : Int)
  | dbError
deriving DecidableEq, Repr

/-- Fault flags for the statements inside `update_sale`'s transaction. -/
structure UpdFaults where
  select : Bool
  update : Bool
  commit : Bool
deriving DecidableEq, Repr

/-- A fault-free storage layer for `update_sale`. -/
def noUpdFaults : UpdFaults :=
  ⟨false, false, false⟩

/-- Embeds the transactional body of `update_sale` (lines 208-233),
from `BEGIN` onward, for an already-resolved sale id: re-read the
sale's quantity joined with its book's current price, recompute the
total from the new discount, and update the sale row; if the re-read
finds no row the handler reports the error and rolls back. -/
def update_sale_tx (f : UpdFaults) (db : DB) (sid : Nat)
    (new_discount : Int) : DB × UpdResult :=
  if f.select then (db, .dbError)
  else
    match (db.sales.find? (fun s => s.sid == sid)).bind (fun s =>
        (db.books.find? (fun b => b.bid == s.bid)).map (fun b =>
          (s.sqty, b.bprice))) with
    | none => (db, .saleNotFound)
    | some (sqty, bprice) =>
      let new_total := bprice * sqty - new_discount
      if f.update then (db, .dbError)
      else
        let db1 : DB := { db with
          sales := db.sales.map (fun s =>
            if s.sid == sid then { s with sdiscount := new_discount, stotal := new_total }
            else s) }
        if f.commit then (db, .dbError)
        else (db1, .updated sid new_total)

/-- Embeds `update_sale` (lines 173-241) applied to the two strings the
user types: the 1-based selection index and the new discount. -/
def update_sale (f : UpdFaults) (db : DB)
    (choice discStr : String) : DB × UpdResult :=
  let sales := list_sales db
  if sales.isEmpty then (db, .noRecords)
  else if choice = "" then (db, .cancelled)
  else
    match pyInt choice with
    | none => (db, .invalidChoice)
    | some c =>
      if c < 1 ∨ c > (sales.length : Int) then (db, .invalidChoice)
      else
        match sales.get? (c - 1).toNat with
        | none => (db, .invalidChoice)  -- unreachable: the index is in range
        | some entry =>
          match pyInt discStr with
          | none => (db, .discountNotInt)
          | some new_discount =>
            if new_discount < 0 then (db, .discountNegative)
            else update_sale_tx f db entry.1 new_discount

/-- Outcomes of `delete_sale`. -/
inductive DelResult where
  | noRecords
  | cancelled
  | invalidChoice
  | notConfirmed
  | deleted (sid : Nat)
  | dbError
deriving DecidableEq, Repr

/-- Fault flags for the statements inside `delete_sale`'s transaction. -/
structure DelFaults where
  select : Bool
  update : Bool
  delete : Bool
  commit : Bool
deriving DecidableEq, Repr

/-- A fault-free storage layer for `delete_sale`. -/
def noDelFaults : DelFaults :=
  ⟨false, false, false, false⟩

/-- Embeds the transactional body of `delete_sale` (lines 274-299),
from `BEGIN` onward, for an already-resolved sale id: read the sale's
book id and quantity; when a row is found, restore the quantity to the
book's stock and delete the sale row; when none is found the restore
and delete are skipped but the commit still proceeds and the handler
prints the same success message. -/
def delete_sale_tx (f : DelFaults) (db : DB) (sid : Nat) : DB × DelResult :=
  if f.select then (db, .dbError)
  else
    match db.sales.find? (fun s => s.sid == sid) with
    | some sale_info =>
      if f.update then (db, .dbError)
      else
        let db1 : DB := { db with
          books := db.books.map (fun b =>
            if b.bid == sale_info.bid then { b with bstock := b.bstock + sale_info.sqty }
            else b) }
        if f.delete then (db, .dbError)
        else
          let db2 : DB := { db1 with sales := db1.sales.filter (fun t => t.sid != sid) }
          if f.commit then (db, .dbError)
          else (db2, .deleted sid)
    | none =>
      if f.commit then (db, .dbError)
      else (db, .deleted sid)

/-- Embeds `delete_sale` (lines 243-305) applied to the two strings the
user types: the 1-based selection index and the confirmation answer. -/
def delete_sale (f : DelFaults) (db : DB)
    (choice confirm : String) : DB × DelResult :=
  let sales := list_sales db
  if sales.isEmpty then (db, .noRecords)
  else if choice = "" then (db, .cancelled)
  else
    match pyInt choice with
    | none => (db, .invalidChoice)
    | some c =>
      if c < 1 ∨ c > (sales.length : Int) then (db, .invalidChoice)
      else
        match sales.get? (c - 1).toNat with
        | none => (db, .invalidChoice)  -- unreachable: the index is in range
        | some entry =>
          if lowerStr confirm ≠ "y" then (db, .notConfirmed)
          else delete_sale_tx f db entry.1

/-- Embeds the loop-exit test of `main` (lines 320-333): the menu loop
ends exactly when the stripped choice is empty or is the quit option
`"5"`; every other choice, the four handlers included, returns to the
menu. -/
def shell_quits (choice : String) : Bool :=
  pyStrip choice == "" || pyStrip choice == "5"

/-- The date-validator contract as the specification words it: exactly
10 characters, exactly two dashes, splitting on the dash yields three
integer-parseable tokens, month in [1,12] and day in [1,31]. -/
def dateClaim (s : String) : Prop :=
  s.data.length = 10 ∧ s.data.count '-' = 2 ∧
  ∃ t1 t2 t3, splitDash s.data = [t1, t2, t3] ∧
    ∃ y m d : Int, pyIntChars t1 = some y ∧ pyIntChars t2 = some m ∧
      pyIntChars t3 = some d ∧ 1 ≤ m ∧ m ≤ 12 ∧ 1 ≤ d ∧ d ≤ 31

/-- Example store: one member, one single-character book id, no sales. -/
def dbEx : DB :=
  ⟨[⟨"M1", "Alice"⟩], [⟨"B", "Golang", 100, 10⟩], [], 1⟩

/-- Example store whose only book has the two-character id `"B1"`. -/
def dbBug : DB :=
  ⟨[⟨"M1", "Alice"⟩], [⟨"B1", "Golang", 100, 10⟩], [], 1⟩

/-- Example store holding the sale produced by the `dbEx` scenario:
quantity 3 at price 100 with discount 50, stock already decremented. -/
def dbSale : DB :=
  ⟨[⟨"M1", "Alice"⟩], [⟨"B", "Golang", 100, 7⟩],
   [⟨1, "2024-01-02", "M1", "B", 3, 50, 250⟩], 2⟩

/-- A list mapping to a three-element list comes from three elements. -/
theorem map_eq_three {α β : Type} (f : α → β) (l : List α) (a b c : β)
    (h : l.map f = [a, b, c]) :
    ∃ x y z, l = [x, y, z] ∧ f x = a ∧ f y = b ∧ f z = c := by
  match l with
  | [x, y, z] =>
    simp only [List.map, List.cons.injEq, and_true] at h
    exact ⟨x, y, z, rfl, h.1, h.2.1, h.2.2⟩
  | [] | [_] | [_, _] => simp at h
  | _ :: _ :: _ :: _ :: _ => simp at h

/-- Membership through `insertBySid`. -/
theorem insertBySid_mem (s x : Sale) (l : List Sale) :
    x ∈ insertBySid s l ↔ x = s ∨ x ∈ l := by
  induction l with
  | nil => simp [insertBySid]
  | cons t ts ih =>
    simp only [insertBySid]
    split
    · simp [List.mem_cons]
    · simp only [List.mem_cons, ih]
      tauto

/-- Sorting by sale id preserves membership. -/
theorem sortBySid_mem (x : Sale) (l : List Sale) :
    x ∈ sortBySid l ↔ x ∈ l := by
  induction l with
  | nil => simp [sortBySid]
  | cons t ts ih =>
    simp only [sortBySid, List.foldr] at ih ⊢
    rw [insertBySid_mem]
    simp [ih]

/-- Every report row carries the id of some sale row of the store. -/
theorem reportRows_sid (db : DB) (r : ReportRow) (h : r ∈ reportRows db) :
    ∃ t ∈ db.sales, t.sid = r.sid := by
  unfold reportRows at h
  rw [List.mem_filterMap] at h
  obtain ⟨t, ht, hf⟩ := h
  refine ⟨t, (sortBySid_mem t db.sales).mp ht, ?_⟩
  rw [Option.bind_eq_some] at hf
  obtain ⟨m, -, hf2⟩ := hf
  rw [Option.map_eq_some'] at hf2
  obtain ⟨b, -, hr⟩ := hf2
  rw [← hr]

/-- Every listed entry carries the id of some sale row of the store. -/
theorem list_sales_sid (db : DB) (e : Nat × String × String)
    (h : e ∈ list_sales db) : ∃ t ∈ db.sales, t.sid = e.1 := by
  unfold list_sales at h
  rw [List.mem_filterMap] at h
  obtain ⟨t, ht, hf⟩ := h
  refine ⟨t, (sortBySid_mem t db.sales).mp ht, ?_⟩
  rw [Option.map_eq_some'] at hf
  obtain ⟨m, -, hr⟩ := hf
  rw [← hr]

/-- Whenever `add_sale` reports a database error, the store is as it
was before the call: every mutation happens inside the transaction and
the handler rolls back. -/
theorem add_sale_db_error_rollback
    (f : AddFaults) (db : DB) (sdate mid bid qtyStr discStr : String)
    (h : (add_sale f db sdate mid bid qtyStr discStr).2 = .dbError) :
    (add_sale f db sdate mid bid qtyStr discStr).1 = db := by
  rcases hEq : add_sale f db sdate mid bid qtyStr discStr with ⟨db2, r⟩
  rw [hEq] at h
  unfold add_sale at hEq
  repeat' split at hEq
  all_goals simp_all

/-- Whenever `update_sale` reports a database error, the store is as it
was before the call. -/
theorem update_sale_db_error_rollback
    (f : UpdFaults) (db : DB) (choice discStr : String)
    (h : (update_sale f db choice discStr).2 = .dbError) :
    (update_sale f db choice discStr).1 = db := by
  revert h
  unfold update_sale update_sale_tx
  simp only []
  repeat' split
  all_goals simp

/-- Whenever `delete_sale` reports a database error, the store is as it
was before the call. -/
theorem delete_sale_db_error_rollback
    (f : DelFaults) (db : DB) (choice confirm : String)
    (h : (delete_sale f db choice confirm).2 = .dbError) :
    (delete_sale f db choice confirm).1 = db := by
  revert h
  unfold delete_sale delete_sale_tx
  simp only []
  repeat' split
  all_goals simp

/-- C8: the date validator returns true if and only if the string has
exactly 10 characters, exactly two dashes, splits on the dash into
three integer-parseable tokens, and the parsed month lies in [1,12] and
the parsed day in [1,31]; no month-length or leap-year check beyond
that is applied. -/
theorem validate_date_iff_spec (s : String) :
    validate_date s = true ↔ dateClaim s := by
  unfold validate_date dateClaim
  constructor
  · intro h
    split at h
    · exact absurd h (by simp)
    · rename_i hg
      rw [not_or, not_not, not_not] at hg
      refine ⟨hg.1, hg.2, ?_⟩
      split at h
      · rename_i y m d heq
        obtain ⟨t1, t2, t3, hts, hp1, hp2, hp3⟩ := map_eq_three pyIntChars _ _ _ _ heq
        split at h
        · exact absurd h (by simp)
        · rename_i hr
          push_neg at hr
          exact ⟨t1, t2, t3, hts, y, m, d, hp1, hp2, hp3, hr.1, by omega, hr.2.2.1, by omega⟩
      · exact absurd h (by simp)
  · rintro ⟨h10, h2c, t1, t2, t3, hts, y, m, d, hp1, hp2, hp3, hm1, hm2, hd1, hd2⟩
    rw [if_neg (by omega)]
    rw [hts]
    simp only [List.map, hp1, hp2, hp3]
    rw [if_neg (by omega)]

/-- Witness for C8: `"2024-02-31"` (day 31 in February) satisfies the
claimed condition, obtained by evaluating the validator. -/
theorem validate_date_iff_spec_witness : dateClaim "2024-02-31" :=
  (validate_date_iff_spec "2024-02-31").mp (by decide)

/-- C1: when every validation of a create-sale run passes — valid date,
member check passes, book lookup succeeds, positive integer quantity
within stock, non-negative integer discount — the run appends exactly
one sale row whose total is the unit price times the quantity minus the
discount, decrements the referenced book's stock by exactly the
quantity, and changes nothing else: members are untouched and every
other book row is mapped to itself. -/
theorem add_sale_success_effect
    (db : DB) (sdate mid bid qtyStr discStr : String)
    (info : BookInfo) (q d : Int)
    (hd : validate_date sdate = true)
    (hm : pyFalsyStrOpt (get_member_name db mid) = false)
    (hb : get_book_info db bid = .ok (some info))
    (hq : pyInt qtyStr = some q) (hqpos : 0 < q) (hqs : q ≤ info.bstock)
    (hdc : pyInt discStr = some d) (hdnn : 0 ≤ d) :
    add_sale noAddFaults db sdate mid bid qtyStr discStr =
      ({ db with
          books := db.books.map (fun b =>
            if b.bid == bid then { b with bstock := b.bstock - q } else b),
          sales := db.sales ++ [⟨db.nextSid, sdate, mid, bid, q, d, info.bprice * q - d⟩],
          nextSid := db.nextSid + 1 },
       .ok (info.bprice * q - d)) := by
  unfold add_sale noAddFaults
  rw [hd, hm, hb, hq, hdc]
  simp only [Bool.not_true, Bool.false_eq_true, if_false]
  rw [if_neg (by omega), if_neg (by omega), if_neg (by omega)]

/-- Witness for C1: the spec's scenario — stock 10, price 100, quantity
3, discount 50 — yields total 250 and stock 7. -/
theorem add_sale_success_effect_witness :
    add_sale noAddFaults dbEx "2024-01-02" "M1" "B" "3" "50" =
      ({ dbEx with
          books := dbEx.books.map (fun b =>
            if b.bid == "B" then { b with bstock := b.bstock - 3 } else b),
          sales := dbEx.sales ++ [⟨dbEx.nextSid, "2024-01-02", "M1", "B", 3, 50, 100 * 3 - 50⟩],
          nextSid := dbEx.nextSid + 1 },
       .ok (100 * 3 - 50)) :=
  add_sale_success_effect dbEx "2024-01-02" "M1" "B" "3" "50" ⟨"Golang", 100, 10⟩ 3 50
    (by decide) (by decide) (by rfl) (by rfl) (by decide) (by decide) (by rfl) (by decide)

/-- C2: a create-sale run whose requested quantity is a positive
integer strictly greater than the book's current stock aborts with the
insufficient-stock message and mutates nothing, whatever the storage
layer would have done. -/
theorem add_sale_insufficient_stock
    (f : AddFaults) (db : DB) (sdate mid bid qtyStr discStr : String)
    (info : BookInfo) (q : Int)
    (hd : validate_date sdate = true)
    (hm : pyFalsyStrOpt (get_member_name db mid) = false)
    (hb : get_book_info db bid = .ok (some info))
    (hq : pyInt qtyStr = some q) (hqpos : 0 < q)
    (hstock : info.bstock < q) :
    add_sale f db sdate mid bid qtyStr discStr = (db, .insufficientStock info.bstock) := by
  unfold add_sale
  rw [hd, hm, hb, hq]
  simp only [Bool.not_true, Bool.false_eq_true, if_false]
  rw [if_neg (by omega), if_pos hstock]

/-- Witness for C2: requesting 20 of a book with stock 10 aborts and
leaves the store unchanged. -/
theorem add_sale_insufficient_stock_witness :
    add_sale noAddFaults dbEx "2024-01-02" "M1" "B" "20" "50" =
      (dbEx, .insufficientStock 10) :=
  add_sale_insufficient_stock noAddFaults dbEx "2024-01-02" "M1" "B" "20" "50"
    ⟨"Golang", 100, 10⟩ 20 (by decide) (by decide) (by rfl) (by rfl) (by decide) (by decide)

/-- C3: contrary to the claim, an existing book id does not always pass
the book-existence check.  The call at bookstore.py line 34 passes
`(bid)` — missing the tuple comma that line 27 has — so the id string
itself is the parameter sequence and any id that is not exactly one
character raises `sqlite3.ProgrammingError`: here the two-character id
`"B1"` exists in the book table, yet the lookup errors and the
create-sale run aborts with a database error instead of proceeding to
the quantity prompt. -/
theorem get_book_info_binding_bug :
    dbBug.books.find? (fun b => b.bid == "B1") = some ⟨"B1", "Golang", 100, 10⟩ ∧
    get_book_info dbBug "B1" = .error .bindingMismatch ∧
    add_sale noAddFaults dbBug "2024-01-02" "M1" "B1" "3" "0" = (dbBug, .dbError) :=
  ⟨rfl, rfl, rfl⟩

/-- C4: a confirmed delete of a sale that exists at deletion time
restores exactly the sale's quantity to the referenced book's stock,
removes the sale row, and leaves everything else unchanged; afterwards
no report row and no listing entry carries the deleted sale's id. -/
theorem delete_sale_confirmed_effect
    (db : DB) (choice confirm : String) (c : Int)
    (entry : Nat × String × String) (s : Sale)
    (h1 : choice ≠ "") (h2 : pyInt choice = some c)
    (h3 : 1 ≤ c) (h4 : c ≤ ((list_sales db).length : Int))
    (h5 : (list_sales db).get? (c - 1).toNat = some entry)
    (h6 : lowerStr confirm = "y")
    (h7 : db.sales.find? (fun t => t.sid == entry.1) = some s) :
    delete_sale noDelFaults db choice confirm =
      ({ db with
          books := db.books.map (fun b =>
            if b.bid == s.bid then { b with bstock := b.bstock + s.sqty } else b),
          sales := db.sales.filter (fun t => t.sid != entry.1) },
       .deleted entry.1)
    ∧ (∀ r ∈ reportRows (delete_sale noDelFaults db choice confirm).1, r.sid ≠ entry.1)
    ∧ (∀ e ∈ list_sales (delete_sale noDelFaults db choice confirm).1, e.1 ≠ entry.1) := by
  have hne : (list_sales db).isEmpty = false := by
    rcases he : list_sales db with _ | _
    · rw [he] at h5; simp at h5
    · simp [List.isEmpty]
  have hmain : delete_sale noDelFaults db choice confirm =
      ({ db with
          books := db.books.map (fun b =>
            if b.bid == s.bid then { b with bstock := b.bstock + s.sqty } else b),
          sales := db.sales.filter (fun t => t.sid != entry.1) },
       .deleted entry.1) := by
    unfold delete_sale
    simp only []
    rw [hne, if_neg h1, h2]
    dsimp only
    rw [if_neg (show ¬(c < 1 ∨ c > ((list_sales db).length : Int)) by omega), h5]
    dsimp only
    rw [if_neg (show ¬(lowerStr confirm ≠ "y") by simp [h6])]
    unfold delete_sale_tx noDelFaults
    rw [h7]
    simp
  refine ⟨hmain, ?_, ?_⟩
  · intro r hr
    rw [hmain] at hr
    obtain ⟨t, ht, hsid⟩ := reportRows_sid _ r hr
    simp only [List.mem_filter] at ht
    intro hcontra
    rw [← hsid] at hcontra
    rw [hcontra] at ht
    simp at ht
  · intro e he
    rw [hmain] at he
    obtain ⟨t, ht, hsid⟩ := list_sales_sid _ e he
    simp only [List.mem_filter] at ht
    intro hcontra
    rw [← hsid] at hcontra
    rw [hcontra] at ht
    simp at ht

/-- Witness for C4: confirming deletion of the scenario sale (quantity
3, stock 7) restores the stock to 10 and removes the sale row. -/
theorem delete_sale_confirmed_effect_witness :
    delete_sale noDelFaults dbSale "1" "Y" =
      ({ dbSale with
          books := dbSale.books.map (fun b =>
            if b.bid == "B" then { b with bstock := b.bstock + 3 } else b),
          sales := dbSale.sales.filter (fun t => t.sid != 1) },
       .deleted 1) :=
  (delete_sale_confirmed_effect dbSale "1" "Y" 1 (1, "2024-01-02", "Alice")
      ⟨1, "2024-01-02", "M1", "B", 3, 50, 250⟩ (by decide) (by rfl) (by decide) (by decide)
      (by rfl) (by rfl) (by rfl)).1

/-- C5: a successful update-sale run changes only the selected sale's
discount and total: the book table (hence every stock), the member
table, every other sale row, and the selected sale's quantity, date and
references are untouched, and the new total is the book's current unit
price times the sale's original quantity minus the new discount. -/
theorem update_sale_success_frame
    (db : DB) (choice discStr : String) (c d : Int)
    (entry : Nat × String × String) (s : Sale) (b : Book)
    (h1 : choice ≠ "")
    (h2 : pyInt choice = some c)
    (h3 : 1 ≤ c) (h4 : c ≤ ((list_sales db).length : Int))
    (h5 : (list_sales db).get? (c - 1).toNat = some entry)
    (h6 : pyInt discStr = some d) (h7 : 0 ≤ d)
    (h8 : db.sales.find? (fun t => t.sid == entry.1) = some s)
    (h9 : db.books.find? (fun bb => bb.bid == s.bid) = some b) :
    update_sale noUpdFaults db choice discStr =
      ({ db with sales := db.sales.map (fun t =>
          if t.sid == entry.1 then { t with sdiscount := d, stotal := b.bprice * s.sqty - d }
          else t) },
       .updated entry.1 (b.bprice * s.sqty - d)) := by
  have hne : (list_sales db).isEmpty = false := by
    rcases he : list_sales db with _ | _
    · rw [he] at h5; simp at h5
    · simp [List.isEmpty]
  unfold update_sale
  simp only []
  rw [hne, if_neg h1, h2]
  dsimp only
  rw [if_neg (show ¬(c < 1 ∨ c > ((list_sales db).length : Int)) by omega), h5]
  dsimp only
  rw [h6]
  dsimp only
  rw [if_neg (show ¬(d < 0) by omega)]
  unfold update_sale_tx noUpdFaults
  rw [h8]
  dsimp only [Option.some_bind]
  rw [h9]
  simp

/-- Witness for C5: updating the scenario sale's discount to 20 yields
total 280 while quantity and stock stay 3 and 7. -/
theorem update_sale_success_frame_witness :
    update_sale noUpdFaults dbSale "1" "20" =
      ({ dbSale with sales := dbSale.sales.map (fun t =>
          if t.sid == 1 then { t with sdiscount := 20, stotal := 100 * 3 - 20 } else t) },
       .updated 1 (100 * 3 - 20)) :=
  update_sale_success_frame dbSale "1" "20" 1 20 (1, "2024-01-02", "Alice")
    ⟨1, "2024-01-02", "M1", "B", 3, 50, 250⟩ ⟨"B", "Golang", 100, 7⟩
    (by decide) (by rfl) (by decide) (by decide) (by rfl) (by rfl) (by decide)
    (by rfl) (by rfl)

/-- C6: a confirmed delete whose sale id matches no sale row at
deletion time skips the stock restore, still commits, and completes as
a silent no-op: the store is unchanged and the handler prints the same
success message, not an error. -/
theorem delete_sale_vanished_noop (db : DB) (sid : Nat)
    (h : db.sales.find? (fun t => t.sid == sid) = none) :
    delete_sale_tx noDelFaults db sid = (db, .deleted sid) := by
  unfold delete_sale_tx noDelFaults
  rw [h]
  simp

/-- Witness for C6: deleting the absent sale id 99 commits as a no-op
with the success outcome. -/
theorem delete_sale_vanished_noop_witness :
    delete_sale_tx noDelFaults dbSale 99 = (dbSale, .deleted 99) :=
  delete_sale_vanished_noop dbSale 99 (by rfl)

/-- C7: whenever create, update or delete surfaces a storage-layer
error, the transaction has been rolled back and the store is exactly as
before the operation; and the shell's loop-exit test does not fire on
the choices that dispatch to these handlers, so the menu loop
continues. -/
theorem storage_error_rollback
    (fa : AddFaults) (fu : UpdFaults) (fd : DelFaults) (db : DB)
    (sdate mid bid qtyStr discStr choiceU discU choiceD confirmD : String) :
    ((add_sale fa db sdate mid bid qtyStr discStr).2 = .dbError →
      (add_sale fa db sdate mid bid qtyStr discStr).1 = db) ∧
    ((update_sale fu db choiceU discU).2 = .dbError →
      (update_sale fu db choiceU discU).1 = db) ∧
    ((delete_sale fd db choiceD confirmD).2 = .dbError →
      (delete_sale fd db choiceD confirmD).1 = db) ∧
    shell_quits "1" = false ∧ shell_quits "3" = false ∧ shell_quits "4" = false :=
  ⟨add_sale_db_error_rollback fa db sdate mid bid qtyStr discStr,
   update_sale_db_error_rollback fu db choiceU discU,
   delete_sale_db_error_rollback fd db choiceD confirmD,
   by decide, by decide, by decide⟩

/-- Witness for C7: a fault at the insert statement of an otherwise
valid create-sale run leaves the store unchanged. -/
theorem storage_error_rollback_witness :
    (add_sale ⟨true, false, false⟩ dbEx "2024-01-02" "M1" "B" "3" "50").1 = dbEx :=
  (storage_error_rollback ⟨true, false, false⟩ noUpdFaults noDelFaults dbEx
      "2024-01-02" "M1" "B" "3" "50" "" "" "" "").1 (by rfl)

/-- C9: when the sale table is empty the report prints the distinct
no-records message, mutates nothing and does not fail. -/
theorem report_empty_no_records (db : DB) (h : db.sales = []) :
    print_sale_report db = (db, .noRecords) := by
  unfold print_sale_report reportRows
  rw [h]
  simp [sortBySid]

/-- Witness for C9: the example store with no sales reports
no-records. -/
theorem report_empty_no_records_witness :
    print_sale_report dbEx = (dbEx, .noRecords) :=
  report_empty_no_records dbEx (by rfl)

/-- C10: when the re-read inside update-sale's transaction finds no
sale row for the selected id, the handler reports the error and rolls
back, leaving the store exactly unchanged — unlike delete, which in the
analogous situation completes as a silent no-op with its success
outcome. -/
theorem update_sale_vanished_error (db : DB) (sid : Nat) (d : Int)
    (h : db.sales.find? (fun t => t.sid == sid) = none) :
    update_sale_tx noUpdFaults db sid d = (db, .saleNotFound) ∧
    delete_sale_tx noDelFaults db sid = (db, .deleted sid) := by
  constructor
  · unfold update_sale_tx noUpdFaults
    rw [h]
    simp
  · unfold delete_sale_tx noDelFaults
    rw [h]
    simp

/-- Witness for C10: updating the absent sale id 99 reports the
not-found error and leaves the store unchanged. -/
theorem update_sale_vanished_error_witness :
    update_sale_tx noUpdFaults dbSale 99 20 = (dbSale, .saleNotFound) :=
  (update_sale_vanished_error dbSale 99 20 (by rfl)).1

end BookStore
